import Mathlib

/-!
Shallow embedding of `src/libgit.py` (a content-addressable git-like object
store).  Filesystem state is passed explicitly: every stateful Python
function becomes a Lean function `FS → ... → FS × Except PyError α`, so a
raised Python exception is `.error` while the filesystem mutations that
happened before the raise are kept, exactly as in Python.

Modelling conventions (each noted again at its definition):
* a path is its list of components from the root (`/tmp/x` is
  `["tmp", "x"]`); paths are canonical and the filesystem has no symlinks,
  so `os.path.realpath` is the identity and `os.path.join(p, "..")`
  followed by `realpath` is `p.dropLast`;
* `zlib.compress`/`zlib.decompress` form a lossless pair on the stored
  object files, so the model stores the uncompressed frame bytes;
* `configparser` is modelled structurally: a config file that parses holds
  its section/key/value table (`FileData.ini`); `FileData.text` /
  `FileData.bytes` content stands for data that `configparser` cannot
  parse.
-/

/-- A byte string: a list of byte values (each `< 256` where it matters). -/
abbrev Bytes := List Nat

/-- An absolute, canonical filesystem path, as its components from the root. -/
abbrev FPath := List String

/-- The section/key/value table of a parsed INI configuration. -/
abbrev Ini := List (String × List (String × String))

/-- Python exceptions raised by the source: `TypeError`, `AttributeError`,
and plain `Exception(msg)` (the source raises only bare `Exception`s). -/
inductive PyError where
  | typeError (msg : String)
  | attributeError (msg : String)
  | exception (msg : String)
deriving DecidableEq

instance {α β : Type} [DecidableEq α] [DecidableEq β] : DecidableEq (Except α β) :=
  fun x y =>
    match x, y with
    | .ok a, .ok b =>
      if h : a = b then isTrue (by rw [h]) else isFalse (by intro he; cases he; exact h rfl)
    | .error a, .error b =>
      if h : a = b then isTrue (by rw [h]) else isFalse (by intro he; cases he; exact h rfl)
    | .ok _, .error _ => isFalse (by intro h; cases h)
    | .error _, .ok _ => isFalse (by intro h; cases h)

/-- Contents of one file in the modelled filesystem. -/
inductive FileData where
  | bytes (b : Bytes)
  | text (s : String)
  | ini (c : Ini)
deriving DecidableEq

/-- The filesystem: the set of existing directories and a map (first match
wins) from file paths to their contents.  The root `[]` always exists. -/
structure FS where
  dirs : List FPath
  files : List (FPath × FileData)
deriving DecidableEq

/-- `os.path.isdir`.  The root is always a directory. -/
def FS.isdir (fs : FS) (p : FPath) : Bool :=
  p.isEmpty || fs.dirs.contains p

/-- Contents of the file at `p`, if a file exists there. -/
def FS.lookupFile (fs : FS) (p : FPath) : Option FileData :=
  fs.files.lookup p

/-- `os.path.isfile`. -/
def FS.isfile (fs : FS) (p : FPath) : Bool :=
  (fs.lookupFile p).isSome

/-- `os.path.exists`. -/
def FS.existsPath (fs : FS) (p : FPath) : Bool :=
  fs.isdir p || fs.isfile p

/-- Create or overwrite the file at `p` (Python `open(p, "w")`/`"wb"` plus
the write). -/
def FS.writeFile (fs : FS) (p : FPath) (d : FileData) : FS :=
  { dirs := fs.dirs, files := (p, d) :: fs.files }

/-- Render a path the way Python would print it, for error messages. -/
def pathStr (p : FPath) : String :=
  "/" ++ String.intercalate "/" p

/-- `os.makedirs(p)` (default `exist_ok=False`): recursively create the
missing ancestors, then `mkdir p`; `FileExistsError` if `p` already
exists, `NotADirectoryError` when creating under a non-directory. -/
def makedirsAux : Nat → FS → FPath → FS × Except PyError Unit
  | _, fs, [] => (fs, .error (.exception "FileExistsError"))
  | 0, fs, _ :: _ => (fs, .error (.exception "RecursionError"))
  | fuel + 1, fs, x :: xs =>
    let q := x :: xs
    let parent := q.dropLast
    let step : FS × Except PyError Unit :=
      if parent.isEmpty || fs.existsPath parent then (fs, .ok ())
      else makedirsAux fuel fs parent
    match step with
    | (fs₁, .error e) => (fs₁, .error e)
    | (fs₁, .ok ()) =>
      if fs₁.existsPath q then (fs₁, .error (.exception "FileExistsError"))
      else if !parent.isEmpty && !fs₁.isdir parent then
        (fs₁, .error (.exception "NotADirectoryError"))
      else ({ dirs := q :: fs₁.dirs, files := fs₁.files }, .ok ())

/-- `os.makedirs(p)` proper.  The fuel `p.length` is exact: every
recursive call is on `dropLast`, one component shorter, so the
`RecursionError` fuel case is never reached. -/
def makedirs (fs : FS) (p : FPath) : FS × Except PyError Unit :=
  makedirsAux p.length fs p

/-- `Repository`: worktree root, metadata directory (`gitdir`), and the
configuration table loaded by `configparser` (empty when nothing was
read).  These are the instance fields set by `Repository.__init__`. -/
structure Repository where
  worktree : FPath
  gitdir : FPath
  conf : Ini
deriving DecidableEq

/-- `repo_path(repo, *path)`: join segments under the metadata directory. -/
def repo_path (repo : Repository) (segs : List String) : FPath :=
  repo.gitdir ++ segs

/-- `repo_dir(repo, *path, mkdir)`: return the joined path if it is an
existing directory, raise `Exception("Not a directory ...")` if something
else exists there, create it (with ancestors) when `mkdir` is set,
otherwise return `None`. -/
def repo_dir (fs : FS) (repo : Repository) (segs : List String) (mkdir : Bool) :
    FS × Except PyError (Option FPath) :=
  let p := repo_path repo segs
  if fs.existsPath p then
    if fs.isdir p then (fs, .ok (some p))
    else (fs, .error (.exception ("Not a directory " ++ pathStr p)))
  else if mkdir then
    match makedirs fs p with
    | (fs₁, .error e) => (fs₁, .error e)
    | (fs₁, .ok ()) => (fs₁, .ok (some p))
  else (fs, .ok none)

/-- `repo_file(repo, *path, mkdir)`: ensure the parent directory via
`repo_dir` on all but the last segment, then return the full joined path;
`None` when the parent is missing and `mkdir` is not set. -/
def repo_file (fs : FS) (repo : Repository) (segs : List String) (mkdir : Bool) :
    FS × Except PyError (Option FPath) :=
  match repo_dir fs repo segs.dropLast mkdir with
  | (fs₁, .error e) => (fs₁, .error e)
  | (fs₁, .ok (some _)) => (fs₁, .ok (some (repo_path repo segs)))
  | (fs₁, .ok none) => (fs₁, .ok none)

/-- Value of a nonempty all-decimal-digit character list. -/
def digitsVal (cs : List Char) : Option Nat :=
  if cs.isEmpty then none
  else
    cs.foldl
      (fun acc c =>
        match acc with
        | none => none
        | some n => if c.isDigit then some (n * 10 + (c.toNat - 48)) else none)
      (some 0)

/-- Python `int(s)`: strip surrounding whitespace, then parse an optionally
signed decimal literal; `ValueError` otherwise. -/
def pyInt (s : String) : Except PyError Int :=
  let cs :=
    (((s.data.dropWhile Char.isWhitespace).reverse).dropWhile Char.isWhitespace).reverse
  let res : Option Int :=
    match cs with
    | '-' :: rest => (digitsVal rest).map (fun n => -(Int.ofNat n))
    | '+' :: rest => (digitsVal rest).map Int.ofNat
    | rest => (digitsVal rest).map Int.ofNat
  match res with
  | some n => .ok n
  | none => .error (.exception ("invalid literal for int: " ++ s))

/-- `ConfigParser.get(section, option)`: the stored value, or a
`NoSectionError` / `NoOptionError` when absent. -/
def iniGet (c : Ini) (section_ : String) (option_ : String) :
    Except PyError String :=
  match c.lookup section_ with
  | none => .error (.exception ("NoSectionError: " ++ section_))
  | some kvs =>
    match kvs.lookup option_ with
    | none => .error (.exception ("NoOptionError: " ++ option_))
    | some v => .ok v

/-- `ConfigParser().read([cf])` on the existing path `cf`: a parseable file
yields its table, an unparseable file raises, and a path that cannot be
opened as a file (e.g. a directory) is silently skipped, leaving the
parser empty. -/
def readConf (fs : FS) (cf : FPath) : Except PyError Ini :=
  match fs.lookupFile cf with
  | some (.ini c) => .ok c
  | some (.bytes _) => .error (.exception "MissingSectionHeaderError")
  | some (.text _) => .error (.exception "MissingSectionHeaderError")
  | none => .ok []

/-- `Repository.__init__(path, force)` (libgit.py lines 55-74): set
`worktree`/`gitdir`, require `gitdir` to be a directory unless `force`,
load `.git/config` when present, require it unless `force`, and unless
`force` require `core.repositoryformatversion` to be `0`.  No branch
mutates the filesystem (`repo_file` is called with `mkdir=False`), so only
the `Except` result is returned. -/
def repository_init (fs : FS) (path : FPath) (force : Bool) :
    Except PyError Repository :=
  let gitdir := path ++ [".git"]
  if !(force || fs.isdir gitdir) then
    .error (.exception ("Not a Git repository " ++ pathStr path))
  else
    match repo_file fs ⟨path, gitdir, []⟩ ["config"] false with
    | (_, .error e) => .error e
    | (_, .ok cf) =>
      let confRes : Except PyError Ini :=
        match cf with
        | some p =>
          if fs.existsPath p then readConf fs p
          else if !force then .error (.exception "Configuration file missing")
          else .ok []
        | none =>
          if !force then .error (.exception "Configuration file missing")
          else .ok []
      match confRes with
      | .error e => .error e
      | .ok conf =>
        if force then .ok ⟨path, gitdir, conf⟩
        else
          match iniGet conf "core" "repositoryformatversion" with
          | .error e => .error e
          | .ok vs =>
            match pyInt vs with
            | .error e => .error e
            | .ok v =>
              if v ≠ 0 then
                -- the source raises Exception("Unsupported
                -- repositoryformatversion: {vers}") with a plain (non-f)
                -- string, so the message is literal
                .error (.exception "Unsupported repositoryformatversion: \x7bvers\x7d")
              else .ok ⟨path, gitdir, conf⟩

/-- `repo_default_config()` (libgit.py lines 233-241). -/
def repo_default_config : Ini :=
  [("core", [("repositoryformatversion", "0"), ("filemode", "false"),
             ("bare", "false")])]

/-- Write one file through `repo_file` the way `repo_create` does:
`open(repo_file(repo, seg), "w")` followed by a write.  `repo_file` is
called without `mkdir`; a `None` result would make `open(None, "w")` raise
`TypeError`. -/
def createWrite (fs : FS) (repo : Repository) (seg : String) (d : FileData) :
    FS × Except PyError Unit :=
  match repo_file fs repo [seg] false with
  | (fs₁, .error e) => (fs₁, .error e)
  | (fs₁, .ok none) =>
    (fs₁, .error (.typeError "expected str, bytes or os.PathLike object, not NoneType"))
  | (fs₁, .ok (some p)) => (fs₁.writeFile p d, .ok ())

/-- `assert repo_dir(repo, *segs, mkdir=True)` (libgit.py lines 215-218). -/
def assertRepoDir (fs : FS) (repo : Repository) (segs : List String) :
    FS × Except PyError Unit :=
  match repo_dir fs repo segs true with
  | (fs₁, .error e) => (fs₁, .error e)
  | (fs₁, .ok none) => (fs₁, .error (.exception "AssertionError"))
  | (fs₁, .ok (some _)) => (fs₁, .ok ())

/-- `repo_create(path)` (libgit.py lines 204-230): construct a force-mode
`Repository`, reject an existing non-directory worktree or an existing
`.git`, create the worktree when absent, create the `branches`, `objects`,
`refs/tags`, `refs/heads` directories, then write `description`, `HEAD`
and the default `config`. -/
def repo_create (fs : FS) (path : FPath) : FS × Except PyError Repository :=
  match repository_init fs path true with
  | .error e => (fs, .error e)
  | .ok repo =>
    let step1 : FS × Except PyError Unit :=
      if fs.existsPath repo.worktree then
        if !fs.isdir repo.worktree then
          (fs, .error (.exception (pathStr path ++ " is not a directory")))
        else if fs.existsPath repo.gitdir then
          (fs, .error (.exception (pathStr path ++ " is not empty")))
        else (fs, .ok ())
      else makedirs fs repo.worktree
    match step1 with
    | (fs₁, .error e) => (fs₁, .error e)
    | (fs₁, .ok ()) =>
      match assertRepoDir fs₁ repo ["branches"] with
      | (fs₂, .error e) => (fs₂, .error e)
      | (fs₂, .ok ()) =>
        match assertRepoDir fs₂ repo ["objects"] with
        | (fs₃, .error e) => (fs₃, .error e)
        | (fs₃, .ok ()) =>
          match assertRepoDir fs₃ repo ["refs", "tags"] with
          | (fs₄, .error e) => (fs₄, .error e)
          | (fs₄, .ok ()) =>
            match assertRepoDir fs₄ repo ["refs", "heads"] with
            | (fs₅, .error e) => (fs₅, .error e)
            | (fs₅, .ok ()) =>
              match createWrite fs₅ repo "description"
                  (.text "Unnamed repository; edit this file \x27description\x27 to name the repository.\n") with
              | (fs₆, .error e) => (fs₆, .error e)
              | (fs₆, .ok ()) =>
                match createWrite fs₆ repo "HEAD"
                    (.text "ref: refs/heads/master\n") with
                | (fs₇, .error e) => (fs₇, .error e)
                | (fs₇, .ok ()) =>
                  match createWrite fs₇ repo "config" (.ini repo_default_config) with
                  | (fs₈, .error e) => (fs₈, .error e)
                  | (fs₈, .ok ()) => (fs₈, .ok repo)

/-- `repo_find(path, required)` (libgit.py lines 244-258): walk upward
from the (already canonical) path; at the first ancestor whose `.git` is a
directory, construct a discovery-mode `Repository`; at the root, raise
`Exception("No git directory")` when `required`, else return `None`.  The
walk itself never mutates the filesystem. -/
def repoFindAux : Nat → FS → FPath → Bool → FS × Except PyError (Option Repository)
  | 0, fs, _, _ => (fs, .error (.exception "RecursionError"))
  | fuel + 1, fs, path, required =>
    if fs.isdir (path ++ [".git"]) then
      match repository_init fs path false with
      | .error e => (fs, .error e)
      | .ok r => (fs, .ok (some r))
    else
      let parent := path.dropLast
      if parent = path then
        if required then (fs, .error (.exception "No git directory"))
        else (fs, .ok none)
      else repoFindAux fuel fs parent required

/-- `repo_find(path, required)` proper.  The fuel `path.length + 1`
is exact: each recursive call is on `dropLast` (one component shorter)
and the empty path satisfies `parent = path`, so the `RecursionError`
fuel case is never reached. -/
def repo_find (fs : FS) (path : FPath) (required : Bool) :
    FS × Except PyError (Option Repository) :=
  repoFindAux (path.length + 1) fs path required

/-- Truncate to a 32-bit word. -/
def w32 (x : Nat) : Nat := x % 4294967296

/-- 32-bit left rotation. -/
def rotl32 (x n : Nat) : Nat :=
  let y := w32 x
  w32 (y <<< n) ||| (y >>> (32 - n))

/-- The 8-byte big-endian encoding of `n` (the SHA-1 bit-length field). -/
def beBytes8 (n : Nat) : Bytes :=
  [(n >>> 56) % 256, (n >>> 48) % 256, (n >>> 40) % 256, (n >>> 32) % 256,
   (n >>> 24) % 256, (n >>> 16) % 256, (n >>> 8) % 256, n % 256]

/-- SHA-1 message padding: append `0x80`, zero bytes to 56 mod 64, then
the 64-bit big-endian bit length. -/
def sha1Pad (msg : Bytes) : Bytes :=
  msg ++ [128] ++ List.replicate ((119 - msg.length % 64) % 64) 0
      ++ beBytes8 (8 * msg.length)

/-- Group bytes into big-endian 32-bit words. -/
def toWords : Bytes → List Nat
  | a :: b :: c :: d :: rest => (((a * 256 + b) * 256 + c) * 256 + d) :: toWords rest
  | _ => []

/-- Extend the 16 block words to the 80-entry SHA-1 message schedule. -/
def sha1Schedule (w : List Nat) : List Nat :=
  (List.range 64).foldl
    (fun acc _ =>
      let n := acc.length
      acc ++ [rotl32 ((acc.getD (n - 3) 0) ^^^ (acc.getD (n - 8) 0) ^^^
                      (acc.getD (n - 14) 0) ^^^ (acc.getD (n - 16) 0)) 1])
    w

/-- The five-word SHA-1 state. -/
abbrev Sha1State := Nat × Nat × Nat × Nat × Nat

/-- One SHA-1 compression over a 64-byte block. -/
def sha1Compress (h : Sha1State) (block : Bytes) : Sha1State :=
  let w := sha1Schedule (toWords block)
  let (h0, h1, h2, h3, h4) := h
  let fin := (List.range 80).foldl
    (fun (st : Sha1State) i =>
      let (a, b, c, d, e) := st
      let f :=
        if i < 20 then (b &&& c) ||| ((b ^^^ 4294967295) &&& d)
        else if i < 40 then b ^^^ c ^^^ d
        else if i < 60 then (b &&& c) ||| (b &&& d) ||| (c &&& d)
        else b ^^^ c ^^^ d
      let k :=
        if i < 20 then 1518500249
        else if i < 40 then 1859775393
        else if i < 60 then 2400959708
        else 3395469782
      let temp := w32 (rotl32 a 5 + f + e + k + w.getD i 0)
      (temp, a, rotl32 b 30, c, d))
    (h0, h1, h2, h3, h4)
  let (a, b, c, d, e) := fin
  (w32 (h0 + a), w32 (h1 + b), w32 (h2 + c), w32 (h3 + d), w32 (h4 + e))

def chunks64Aux : Nat → Bytes → List Bytes
  | _, [] => []
  | 0, _ :: _ => []
  | fuel + 1, x :: xs => ((x :: xs).take 64) :: chunks64Aux fuel ((x :: xs).drop 64)

/-- Split a byte list into 64-byte chunks.  The fuel `l.length` suffices
because every chunk consumes at least one byte. -/
def chunks64 (l : Bytes) : List Bytes :=
  chunks64Aux l.length l

/-- The SHA-1 digest of a byte string, as five 32-bit words. -/
def sha1Digest (msg : Bytes) : Sha1State :=
  (chunks64 (sha1Pad msg)).foldl sha1Compress
    (1732584193, 4023233417, 2562383102, 271733878, 3285377520)

/-- One lowercase hexadecimal digit. -/
def hexDigit (n : Nat) : Char :=
  if n < 10 then Char.ofNat (48 + n) else Char.ofNat (87 + n)

/-- Eight lowercase hex digits of a 32-bit word. -/
def hex8 (n : Nat) : String :=
  String.mk [hexDigit ((n >>> 28) % 16), hexDigit ((n >>> 24) % 16),
             hexDigit ((n >>> 20) % 16), hexDigit ((n >>> 16) % 16),
             hexDigit ((n >>> 12) % 16), hexDigit ((n >>> 8) % 16),
             hexDigit ((n >>> 4) % 16), hexDigit (n % 16)]

/-- `hashlib.sha1(msg).hexdigest()`: 40 lowercase hex characters. -/
def sha1Hex (msg : Bytes) : String :=
  let (a, b, c, d, e) := sha1Digest msg
  hex8 a ++ hex8 b ++ hex8 c ++ hex8 d ++ hex8 e

set_option maxRecDepth 100000

/-- `zlib.compress` as stored in the model: the pair
`zlib.compress`/`zlib.decompress` is lossless, so object files hold the
frame itself. -/
def zlibCompress (b : Bytes) : Bytes := b

/-- A git object as `object_write` consumes it: the class field `fmt` and
the byte string its `serialize()` returns.  (`GitBlob.serialize` returns
`self.blobdata`; tree/commit/tag never get that far, see `object_hash`.) -/
structure GitObj where
  fmt : Bytes
  data : Bytes
deriving DecidableEq

/-- ASCII decimal rendering of a length, Python `str(n).encode()`. -/
def decAscii (n : Nat) : Bytes :=
  (Nat.toDigits 10 n).map Char.toNat

/-- The canonical frame `obj.fmt + b" " + str(len(data)).encode() +
b"\x00" + data` built by `object_write` (libgit.py line 146). -/
def objFrame (obj : GitObj) : Bytes :=
  obj.fmt ++ [32] ++ decAscii obj.data.length ++ [0] ++ obj.data

/-- `object_write(obj, repo)` (libgit.py lines 143-157): hash the frame
with SHA-1; when a repository is supplied, ensure the fan-out directory
(`mkdir=True`), and write the compressed frame only when no file exists at
the digest path. -/
def object_write (fs : FS) (obj : GitObj) (repo : Option Repository) :
    FS × Except PyError String :=
  let result := objFrame obj
  let sha := sha1Hex result
  match repo with
  | none => (fs, .ok sha)
  | some r =>
    match repo_file fs r ["objects", sha.take 2, sha.drop 2] true with
    | (fs₁, .error e) => (fs₁, .error e)
    | (fs₁, .ok none) =>
      -- `path` would be None and `os.path.exists(None)` raises
      (fs₁, .error (.typeError "stat: path should be string, bytes, os.PathLike or integer, not NoneType"))
    | (fs₁, .ok (some p)) =>
      if fs₁.existsPath p then (fs₁, .ok sha)
      else (fs₁.writeFile p (.bytes (zlibCompress result)), .ok sha)

/-- Python `bytes.find` with a bytes needle: first index at or after
`start`, `-1` when absent. -/
def bytesFind (raw : Bytes) (needle : Nat) (start : Nat) : Int :=
  match (raw.drop start).findIdx? (· = needle) with
  | some i => Int.ofNat (start + i)
  | none => -1

/-- Python `bytes.find` when the needle is a `str`, as in
`raw.find("\x00", space)` (libgit.py line 127): CPython rejects a `str`
needle on `bytes` outright, so this raises `TypeError` for every input. -/
def bytesFindStr (_raw : Bytes) (_needle : String) (_start : Int) :
    Except PyError Int :=
  .error (.typeError "argument should be integer or bytes-like object, not str")

/-- What `object_read` would construct at line 140; the `find` bug means
no run ever reaches this point (see `object_read`). -/
inductive ReadObj where
  | obj (kind : Bytes) (payload : Bytes)
deriving DecidableEq

/-- `object_read(repo, sha)` (libgit.py lines 115-140): resolve the
two-level fan-out path (a missing fan-out directory makes `repo_file`
return `None`, and `os.path.isfile(None)` raises `TypeError`); return
`None` when no file is there; otherwise decompress and parse the frame.
Parsing computes `space = raw.find(b" ")` and then
`null_char = raw.find("\x00", space)` — a `str` needle on `bytes`, which
raises `TypeError` unconditionally (`bytesFindStr`), so the size check,
the kind dispatch and the constructor call below it are unreachable. -/
def object_read (fs : FS) (repo : Repository) (sha : String) :
    FS × Except PyError (Option ReadObj) :=
  match repo_file fs repo ["objects", sha.take 2, sha.drop 2] false with
  | (fs₁, .error e) => (fs₁, .error e)
  | (fs₁, .ok none) =>
    (fs₁, .error (.typeError "stat: path should be string, bytes, os.PathLike or integer, not NoneType"))
  | (fs₁, .ok (some p)) =>
    match fs₁.lookupFile p with
    | none => (fs₁, .ok none)
    | some (.bytes raw) =>
      let space := bytesFind raw 32 0
      match bytesFindStr raw "\x00" space with
      | .error e => (fs₁, .error e)
      | .ok _ => (fs₁, .ok none)
    | some _ => (fs₁, .error (.exception "zlib.error"))

/-- `object_find(repo, name, fmt, follow)` (libgit.py lines 160-161): a
stub that returns its input unchanged. -/
def object_find (name : String) : String := name

/-- The attribute dictionary of a `GitBlob` instance: `blobdata` is the
only attribute its methods ever assign. -/
structure GitBlobState where
  blobdata : Option Bytes
deriving DecidableEq

/-- `GitBlob(data)` via `GitObject.__init__` (libgit.py lines 77-82,
105-112): with `data != None` it calls `deserialize(data)`, which runs
`self.blobdata = self.data`; no attribute `data` is ever assigned, so the
read raises `AttributeError`.  With `data = None` it calls `init()`,
which is `pass`. -/
def gitBlobNew (data : Option Bytes) : Except PyError GitBlobState :=
  match data with
  | some _ => .error (.attributeError "GitBlob object has no attribute data")
  | none => .ok ⟨none⟩

/-- `GitBlob.serialize` (libgit.py lines 108-109): return
`self.blobdata`, raising `AttributeError` when it was never assigned. -/
def gitBlobSerialize (b : GitBlobState) : Except PyError Bytes :=
  match b.blobdata with
  | some d => .ok d
  | none => .error (.attributeError "GitBlob object has no attribute blobdata")

/-- `object_hash(fd, fmt, repo)` (libgit.py lines 164-176): choose the
constructor by `fmt` and pass the bytes read from `fd`.  `GitBlob(data)`
raises (see `gitBlobNew`); `GitCommit`/`GitTree`/`GitTag` are attribute-
free classes whose default constructor accepts no argument, so
`GitCommit(data)` raises `TypeError`; any other kind raises the
`Unknown type` exception. -/
def object_hash (fs : FS) (fmt : Bytes) (data : Bytes) (repo : Option Repository) :
    FS × Except PyError String :=
  if fmt = [98, 108, 111, 98] then        -- b"blob"
    match gitBlobNew (some data) with
    | .error e => (fs, .error e)
    | .ok b =>
      match gitBlobSerialize b with
      | .error e => (fs, .error e)
      | .ok d => object_write fs ⟨[98, 108, 111, 98], d⟩ repo
  else if fmt = [99, 111, 109, 109, 105, 116]       -- b"commit"
      || fmt = [116, 114, 101, 101]                 -- b"tree"
      || fmt = [116, 97, 103] then                  -- b"tag"
    (fs, .error (.typeError "takes no arguments"))
  else (fs, .error (.exception "Unknown type"))

/-! ## Shared lemmas -/

/-- Force-mode construction when nothing exists at the metadata path:
`repo_file` returns `None`, nothing is read, and the handle comes back
with an empty configuration. -/
theorem repository_init_force_nogit (fs : FS) (p : FPath)
    (hex : fs.existsPath (p ++ [".git"]) = false) :
    repository_init fs p true = .ok ⟨p, p ++ [".git"], []⟩ := by
  simp [repository_init, repo_file, repo_dir, repo_path, hex]

/-- Force-mode construction succeeds whenever the metadata path is not
occupied by a non-directory and any config file present parses; the
handle's `worktree`/`gitdir` fields are as assigned on lines 56-57. -/
theorem repository_init_force_ok (fs : FS) (p : FPath)
    (hgd : fs.existsPath (p ++ [".git"]) = true → fs.isdir (p ++ [".git"]) = true)
    (hcf : ∀ d, fs.lookupFile (p ++ [".git", "config"]) = some d →
      ∃ c, d = FileData.ini c) :
    ∃ c, repository_init fs p true = .ok ⟨p, p ++ [".git"], c⟩ := by
  by_cases hex : fs.existsPath (p ++ [".git"]) = true
  · have hd := hgd hex
    rcases hc : fs.lookupFile (p ++ [".git", "config"]) with _ | d
    · refine ⟨[], ?_⟩
      simp [repository_init, repo_file, repo_dir, repo_path, hex, hd, readConf, hc]
    · rcases hcf d hc with ⟨c, rfl⟩
      have hexcf : fs.existsPath (p ++ [".git", "config"]) = true := by
        simp [FS.existsPath, FS.isfile, hc]
      refine ⟨c, ?_⟩
      simp [repository_init, repo_file, repo_dir, repo_path, hex, hd, readConf,
            hc, hexcf]
  · rw [Bool.not_eq_true] at hex
    refine ⟨[], ?_⟩
    simp [repository_init, repo_file, repo_dir, repo_path, hex]

/-! ## Concrete fixtures used by the claim theorems -/

/-- A `GitBlob` whose `serialize()` yields the 3-byte payload `b"abc"`. -/
def blobAbc : GitObj := ⟨[98, 108, 111, 98], [97, 98, 99]⟩

/-- A repository handle rooted at `/r` with metadata directory `/r/.git`. -/
def repoR : Repository := ⟨["r"], ["r", ".git"], []⟩

/-- `/r` with an initialized but empty object store. -/
def fsR : FS := ⟨[["r"], ["r", ".git"], ["r", ".git", "objects"]], []⟩

/-! ## Claim theorems -/

/-- C2 counterexample: hashing payload `b"abc"` as kind `blob` does produce
the frame `b"blob 3\x00abc"`, but that frame is 10 bytes long, not the 12
bytes the claim asserts the digest is computed over. -/
theorem frame_blob_abc_not_twelve_bytes :
    objFrame blobAbc = [98, 108, 111, 98, 32, 51, 0, 97, 98, 99] ∧
    (objFrame blobAbc).length ≠ 12 := by decide

/-- C2 (amended): hashing the 3-byte payload `b"abc"` as kind `blob`
produces exactly the frame `b"blob 3\x00abc"` (10 bytes), and the digest
returned by `object_write` for that object is the SHA-1 hash of those 10
bytes, rendered as 40 lowercase hex characters
(`f2ba8f84ab5c1bce84a7b441cb1959cfc7093b7f`, matching
`hashlib.sha1(b"blob 3\x00abc").hexdigest()`). -/
theorem object_write_blob_abc_digest :
    objFrame blobAbc = [98, 108, 111, 98, 32, 51, 0, 97, 98, 99] ∧
    (objFrame blobAbc).length = 10 ∧
    (object_write ⟨[], []⟩ blobAbc none).2 =
      .ok (sha1Hex [98, 108, 111, 98, 32, 51, 0, 97, 98, 99]) ∧
    sha1Hex [98, 108, 111, 98, 32, 51, 0, 97, 98, 99] =
      "f2ba8f84ab5c1bce84a7b441cb1959cfc7093b7f" ∧
    ("f2ba8f84ab5c1bce84a7b441cb1959cfc7093b7f" : String).length = 40 ∧
    ("f2ba8f84ab5c1bce84a7b441cb1959cfc7093b7f" : String).toList.all
      (fun c => ("0123456789abcdef" : String).toList.contains c) = true := by
  decide

/-- C10: constructing a `GitBlob` from any non-`None` data raises
`AttributeError` (its `deserialize` reads the never-assigned attribute
`self.data`), and consequently `object_hash` with kind `blob` never
returns a digest for any input, repository or not. -/
theorem gitBlob_construction_raises :
    (∀ d : Bytes, gitBlobNew (some d) =
      .error (.attributeError "GitBlob object has no attribute data")) ∧
    (∀ (fs : FS) (repo : Option Repository) (d : Bytes),
      object_hash fs [98, 108, 111, 98] d repo =
        (fs, .error (.attributeError "GitBlob object has no attribute data"))) := by
  refine ⟨fun d => rfl, fun fs repo d => ?_⟩
  simp [object_hash, gitBlobNew]

/-- The object-file path of a digest under `repoR`, via the two-level
fan-out (first 2 hex characters, remaining 38). -/
def objPathR (sha : String) : FPath :=
  ["r", ".git", "objects", sha.take 2, sha.drop 2]

/-- A 40-character digest used to address stored test frames. -/
def shaA : String := "aaaaaaaaaaaaaaaaaaaaaaaaaaaaaaaaaaaaaaaa"

/-- `/r` with a stored frame `b"blob 5\x00abc"` at `shaA`: the declared
length 5 does not match the 3 payload bytes. -/
def fsBadLen : FS :=
  ⟨[["r"], ["r", ".git"], ["r", ".git", "objects"],
    ["r", ".git", "objects", "aa"]],
   [(objPathR shaA, .bytes [98, 108, 111, 98, 32, 53, 0, 97, 98, 99])]⟩

/-- C5: reading back a stored frame whose declared length (5) does not
match its actual payload length (3) does fail — but with the `TypeError`
raised by `raw.find("\x00", space)` (a `str` needle on `bytes`), not with
the `Malformed object ...: bad length` error, whose check on line 130 is
unreachable. -/
theorem object_read_bad_length_typeError :
    object_read fsBadLen repoR shaA =
      (fsBadLen,
       .error (.typeError "argument should be integer or bytes-like object, not str")) := by
  decide

/-- A 40-character digest used to address the unknown-kind test frame. -/
def shaB : String := "bbbbbbbbbbbbbbbbbbbbbbbbbbbbbbbbbbbbbbbb"

/-- `/r` with a stored frame `b"foo 3\x00abc"` at `shaB`: kind token `foo`
is outside {blob, tree, commit, tag}. -/
def fsBadKind : FS :=
  ⟨[["r"], ["r", ".git"], ["r", ".git", "objects"],
    ["r", ".git", "objects", "bb"]],
   [(["r", ".git", "objects", "bb",
      "bbbbbbbbbbbbbbbbbbbbbbbbbbbbbbbbbbbbbb"],
     .bytes [102, 111, 111, 32, 51, 0, 97, 98, 99])]⟩

/-- C6: reading back a stored frame whose kind token is `foo` does fail —
but with the `TypeError` raised by `raw.find("\x00", space)`, not with the
`Unknown type` error: the kind dispatch on lines 133-138 is unreachable. -/
theorem object_read_unknown_kind_typeError :
    object_read fsBadKind repoR shaB =
      (fsBadKind,
       .error (.typeError "argument should be integer or bytes-like object, not str")) := by
  decide

/-- C1: writing the blob with payload `b"abc"` succeeds and returns its
digest, but reading that digest back does not return the object: every
`object_read` of an existing object file raises the `TypeError` from
`raw.find("\x00", space)`, so the write/read round-trip never holds. -/
theorem object_roundtrip_broken :
    (object_write fsR blobAbc (some repoR)).2 =
      .ok (sha1Hex (objFrame blobAbc)) ∧
    object_read (object_write fsR blobAbc (some repoR)).1 repoR
        (sha1Hex (objFrame blobAbc)) =
      ((object_write fsR blobAbc (some repoR)).1,
       .error (.typeError "argument should be integer or bytes-like object, not str")) := by
  decide

/-- `/x` whose `.git` entry exists as a regular file, not a directory. -/
def fsGitFile : FS := ⟨[["x"]], [(["x", ".git"], .text "oops")]⟩

/-- C9 counterexample: opening with `force = true` does not always
succeed: when the metadata path exists as a regular file,
`repo_file(self, "config")` hits `repo_dir`'s `Not a directory` check and
the constructor raises even though all three force-guarded checks were
skipped. -/
theorem repository_force_gitdir_file_raises :
    repository_init fsGitFile ["x"] true =
      .error (.exception "Not a directory /x/.git") := by
  decide

/-- C9 (amended): with `force` false, opening a `Repository` fails with
`Not a Git repository` when the metadata directory is not a directory,
with `Configuration file missing` when it is but the config file is
absent, and with the `Unsupported repositoryformatversion` error when the
config declares a version other than 0; with `force` true those three
checks are skipped and construction succeeds, provided the metadata path
is not occupied by a non-directory (else `Not a directory` is raised
during config-path resolution) and any existing config file parses. -/
theorem repository_checks :
    (∀ (fs : FS) (p : FPath), fs.isdir (p ++ [".git"]) = false →
      repository_init fs p false =
        .error (.exception ("Not a Git repository " ++ pathStr p))) ∧
    (∀ (fs : FS) (p : FPath), fs.isdir (p ++ [".git"]) = true →
      fs.existsPath (p ++ [".git", "config"]) = false →
      repository_init fs p false =
        .error (.exception "Configuration file missing")) ∧
    (∀ (fs : FS) (p : FPath) (c : Ini) (v : String) (n : Int),
      fs.isdir (p ++ [".git"]) = true →
      fs.lookupFile (p ++ [".git", "config"]) = some (.ini c) →
      iniGet c "core" "repositoryformatversion" = .ok v →
      pyInt v = .ok n → n ≠ 0 →
      repository_init fs p false =
        .error (.exception "Unsupported repositoryformatversion: \x7bvers\x7d")) ∧
    (∀ (fs : FS) (p : FPath),
      (fs.existsPath (p ++ [".git"]) = true → fs.isdir (p ++ [".git"]) = true) →
      (∀ d, fs.lookupFile (p ++ [".git", "config"]) = some d → ∃ c, d = .ini c) →
      ∃ r, repository_init fs p true = .ok r ∧
        r.worktree = p ∧ r.gitdir = p ++ [".git"]) := by
  refine ⟨?_, ?_, ?_, ?_⟩
  · intro fs p h
    simp [repository_init, h]
  · intro fs p h hcf
    have hex : fs.existsPath (p ++ [".git"]) = true := by
      simp [FS.existsPath, h]
    simp [repository_init, h, repo_file, repo_dir, repo_path, hex, hcf]
  · intro fs p c v n h hcf hget hint hne
    have hex : fs.existsPath (p ++ [".git"]) = true := by
      simp [FS.existsPath, h]
    have hexcf : fs.existsPath (p ++ [".git", "config"]) = true := by
      simp [FS.existsPath, FS.isfile, hcf]
    simp [repository_init, h, repo_file, repo_dir, repo_path, hex, hexcf,
          readConf, hcf, hget, hint, hne]
  · intro fs p hgd hcf
    rcases repository_init_force_ok fs p hgd hcf with ⟨c, hc⟩
    exact ⟨⟨p, p ++ [".git"], c⟩, hc, rfl, rfl⟩

/-- `/w`, a plain directory with no metadata inside. -/
def fsNoGit : FS := ⟨[["w"]], []⟩

/-- `/y` containing an empty metadata directory `/y/.git` (no config). -/
def fsBareGit : FS := ⟨[["y"], ["y", ".git"]], []⟩

/-- `/z` whose `.git/config` declares `repositoryformatversion = 1`. -/
def fsVersionOne : FS :=
  ⟨[["z"], ["z", ".git"]],
   [(["z", ".git", "config"], .ini [("core", [("repositoryformatversion", "1")])])]⟩

/-- C9 witness: the four branches of `repository_checks` at concrete
states. -/
theorem repository_checks_witness :
    repository_init fsNoGit ["w"] false =
      .error (.exception ("Not a Git repository " ++ pathStr ["w"])) ∧
    repository_init fsBareGit ["y"] false =
      .error (.exception "Configuration file missing") ∧
    repository_init fsVersionOne ["z"] false =
      .error (.exception "Unsupported repositoryformatversion: \x7bvers\x7d") ∧
    ∃ r, repository_init fsNoGit ["w"] true = .ok r ∧
      r.worktree = ["w"] ∧ r.gitdir = ["w", ".git"] := by
  refine ⟨repository_checks.1 fsNoGit ["w"] (by decide),
          repository_checks.2.1 fsBareGit ["y"] (by decide) (by decide),
          repository_checks.2.2.1 fsVersionOne ["z"]
            [("core", [("repositoryformatversion", "1")])] "1" 1
            (by decide) (by decide) (by decide) (by decide) (by decide),
          repository_checks.2.2.2 fsNoGit ["w"] (by decide)
            (fun d hd => by simp [fsNoGit, FS.lookupFile] at hd)⟩

/-- C8: `repo_create` fails with the `is not a directory` error when the
target exists and is not a directory (on a real filesystem a regular file
has no children, hence the no-`.git`-under-it hypothesis), and with the
`is not empty` error when a metadata directory already exists there (with
its config file, if any, parseable); in both cases the returned filesystem
is the input one — nothing is created. -/
theorem repo_create_rejects :
    (∀ (fs : FS) (p : FPath),
      fs.existsPath p = true → fs.isdir p = false →
      fs.existsPath (p ++ [".git"]) = false →
      repo_create fs p =
        (fs, .error (.exception (pathStr p ++ " is not a directory")))) ∧
    (∀ (fs : FS) (p : FPath),
      fs.isdir p = true → fs.isdir (p ++ [".git"]) = true →
      (∀ d, fs.lookupFile (p ++ [".git", "config"]) = some d → ∃ c, d = .ini c) →
      repo_create fs p =
        (fs, .error (.exception (pathStr p ++ " is not empty")))) := by
  constructor
  · intro fs p hex hnd hng
    have hr := repository_init_force_nogit fs p hng
    simp [repo_create, hr, hex, hnd]
  · intro fs p hd hgd hcf
    rcases repository_init_force_ok fs p (fun _ => hgd) hcf with ⟨c, hr⟩
    have hex : fs.existsPath p = true := by simp [FS.existsPath, hd]
    have hexg : fs.existsPath (p ++ [".git"]) = true := by
      simp [FS.existsPath, hgd]
    simp [repo_create, hr, hex, hd, hexg]

/-- `/f`, a regular file. -/
def fsFileAtF : FS := ⟨[], [(["f"], .text "data")]⟩

/-- C8 witness: `repo_create` on a regular file and on a directory that
already holds a metadata directory, at concrete states, leaving the
filesystem untouched. -/
theorem repo_create_rejects_witness :
    repo_create fsFileAtF ["f"] =
      (fsFileAtF, .error (.exception (pathStr ["f"] ++ " is not a directory"))) ∧
    repo_create fsBareGit ["y"] =
      (fsBareGit, .error (.exception (pathStr ["y"] ++ " is not empty"))) := by
  refine ⟨repo_create_rejects.1 fsFileAtF ["f"] (by decide) (by decide) (by decide),
          repo_create_rejects.2 fsBareGit ["y"] (by decide) (by decide)
            (fun d hd => by simp [fsBareGit, FS.lookupFile] at hd)⟩

/-- C3: `object_write` with no repository returns the digest of the frame
and the unchanged filesystem — no file or directory is created — and any
successful `object_write` of the same object into any repository and any
starting state returns that same digest. -/
theorem object_write_dry_run :
    ∀ (obj : GitObj) (fs : FS),
      object_write fs obj none = (fs, .ok (sha1Hex (objFrame obj))) ∧
      ∀ (r : Repository) (fs₀ fs₁ : FS) (s : String),
        object_write fs₀ obj (some r) = (fs₁, .ok s) →
        s = sha1Hex (objFrame obj) := by
  intro obj fs
  refine ⟨rfl, ?_⟩
  intro r fs₀ fs₁ s h
  unfold object_write at h
  rcases hrf : repo_file fs₀ r ["objects", (sha1Hex (objFrame obj)).take 2,
      (sha1Hex (objFrame obj)).drop 2] true with ⟨fsa, ea⟩
  rcases ea with e | po
  · simp [hrf] at h
  · rcases po with _ | p
    · simp [hrf] at h
    · by_cases hex : fsa.existsPath p = true
      · simp [hrf, hex] at h
        exact h.2.symm
      · rw [Bool.not_eq_true] at hex
        simp [hrf, hex] at h
        exact h.2.symm

/-- C3 witness: at `/r`, the dry-run digest of the `abc` blob, and its
agreement with the digest a real write into `/r` returns. -/
theorem object_write_dry_run_witness :
    object_write fsR blobAbc none = (fsR, .ok (sha1Hex (objFrame blobAbc))) ∧
    (object_write fsR blobAbc (some repoR)).2 = .ok (sha1Hex (objFrame blobAbc)) := by
  have h : object_write fsR blobAbc (some repoR) =
      ((object_write fsR blobAbc (some repoR)).1,
       .ok (sha1Hex (objFrame blobAbc))) := by decide
  refine ⟨(object_write_dry_run blobAbc fsR).1, ?_⟩
  have h2 := (object_write_dry_run blobAbc fsR).2 repoR fsR
    (object_write fsR blobAbc (some repoR)).1 (sha1Hex (objFrame blobAbc)) h
  rw [h]

/-- A successful `makedirsAux` leaves its target in the directory set. -/
theorem makedirsAux_ok_isdir (fuel : Nat) (fs : FS) (p : FPath) (fs' : FS)
    (u : Unit) (h : makedirsAux fuel fs p = (fs', .ok u)) :
    fs'.isdir p = true := by
  match fuel, p with
  | fuel, [] => simp [makedirsAux] at h
  | 0, x :: xs => simp [makedirsAux] at h
  | fuel + 1, x :: xs =>
    rcases hstep : (if (x :: xs).dropLast.isEmpty
          || fs.existsPath (x :: xs).dropLast then (fs, Except.ok ())
        else makedirsAux fuel fs (x :: xs).dropLast) with ⟨fs₁, e⟩
    rcases e with e | v
    · simp only [makedirsAux] at h
      rw [hstep] at h
      simp at h
    · simp only [makedirsAux] at h
      rw [hstep] at h
      by_cases hq : fs₁.existsPath (x :: xs) = true
      · simp [hq] at h
      · rw [Bool.not_eq_true] at hq
        by_cases hpar : (!(x :: xs).dropLast.isEmpty && !fs₁.isdir (x :: xs).dropLast) = true
        · simp [hq, hpar] at h
        · rw [Bool.not_eq_true] at hpar
          simp [hq, hpar] at h
          rw [← h]
          simp [FS.isdir]

/-- A successful `makedirs` leaves its target in the directory set. -/
theorem makedirs_ok_isdir (fs : FS) (p : FPath) (fs' : FS) (u : Unit)
    (h : makedirs fs p = (fs', .ok u)) : fs'.isdir p = true :=
  makedirsAux_ok_isdir p.length fs p fs' u h

/-- A successful `repo_dir` with `mkdir` returns the joined path and
leaves it a directory. -/
theorem repo_dir_mkdir_ok (fs : FS) (r : Repository) (segs : List String)
    (fs' : FS) (q : FPath) (h : repo_dir fs r segs true = (fs', .ok (some q))) :
    q = repo_path r segs ∧ fs'.isdir (repo_path r segs) = true := by
  unfold repo_dir at h
  by_cases hex : fs.existsPath (repo_path r segs) = true
  · by_cases hd : fs.isdir (repo_path r segs) = true
    · simp [hex, hd] at h
      exact ⟨h.2.symm, h.1 ▸ hd⟩
    · simp [hex, hd] at h
  · rw [Bool.not_eq_true] at hex
    rcases hmk : makedirs fs (repo_path r segs) with ⟨fs₁, e⟩
    rcases e with e | v
    · simp [hex, hmk] at h
    · simp [hex, hmk] at h
      exact ⟨h.2.symm, h.1 ▸ makedirs_ok_isdir fs _ fs₁ v hmk⟩

/-- A successful `repo_file` with `mkdir` returns the joined path and
leaves its parent a directory. -/
theorem repo_file_mkdir_ok (fs : FS) (r : Repository) (segs : List String)
    (fs' : FS) (q : FPath) (h : repo_file fs r segs true = (fs', .ok (some q))) :
    q = repo_path r segs ∧ fs'.isdir (repo_path r segs.dropLast) = true := by
  unfold repo_file at h
  rcases hrd : repo_dir fs r segs.dropLast true with ⟨fs₁, e⟩
  rcases e with e | po
  · rw [hrd] at h
    simp at h
  · rcases po with _ | pd
    · rw [hrd] at h
      simp at h
    · rw [hrd] at h
      simp at h
      obtain ⟨-, hdir⟩ := repo_dir_mkdir_ok fs r segs.dropLast fs₁ pd hrd
      exact ⟨h.2.symm, h.1 ▸ hdir⟩

/-- When the parent directory already exists, `repo_file` (with or without
`mkdir`) changes nothing and returns the joined path. -/
theorem repo_file_isdir_exists (fs : FS) (r : Repository) (segs : List String)
    (mk : Bool) (hd : fs.isdir (repo_path r segs.dropLast) = true) :
    repo_file fs r segs mk = (fs, .ok (some (repo_path r segs))) := by
  have hex : fs.existsPath (repo_path r segs.dropLast) = true := by
    simp [FS.existsPath, hd]
  unfold repo_file repo_dir
  simp [hex, hd]

/-- Writing a file does not change the directory set. -/
theorem writeFile_isdir (fs : FS) (p : FPath) (d : FileData) (q : FPath) :
    (fs.writeFile p d).isdir q = fs.isdir q := rfl

/-- A freshly written file exists. -/
theorem writeFile_exists_self (fs : FS) (p : FPath) (d : FileData) :
    (fs.writeFile p d).existsPath p = true := by
  simp [FS.existsPath, FS.isfile, FS.lookupFile, FS.writeFile]

/-- C4: writing the same object into the same repository twice yields the
same digest both times, and the second call is a pure no-op: it sees the
file already present at the digest path and returns the identical
filesystem.  Moreover the first call cannot raise once the fan-out
directory for the digest exists (and if absent it is created, so in a
well-formed store neither call raises). -/
theorem object_write_idempotent :
    (∀ (fs : FS) (obj : GitObj) (r : Repository) (fs₁ : FS) (s : String),
      object_write fs obj (some r) = (fs₁, .ok s) →
      object_write fs₁ obj (some r) = (fs₁, .ok s)) ∧
    (∀ (fs : FS) (obj : GitObj) (r : Repository),
      fs.isdir (repo_path r ["objects", (sha1Hex (objFrame obj)).take 2]) = true →
      ∃ fs', object_write fs obj (some r) = (fs', .ok (sha1Hex (objFrame obj)))) := by
  constructor
  · intro fs obj r fs₁ s h
    unfold object_write at h ⊢
    rcases hrf : repo_file fs r ["objects", (sha1Hex (objFrame obj)).take 2,
        (sha1Hex (objFrame obj)).drop 2] true with ⟨fsa, ea⟩
    rcases ea with e | po
    · simp [hrf] at h
    · rcases po with _ | p
      · simp [hrf] at h
      · obtain ⟨hp, hdir⟩ := repo_file_mkdir_ok fs r _ fsa p hrf
        subst hp
        by_cases hex : fsa.existsPath (repo_path r ["objects",
            (sha1Hex (objFrame obj)).take 2, (sha1Hex (objFrame obj)).drop 2]) = true
        · simp [hrf, hex] at h
          obtain ⟨hfs, hs⟩ := h
          subst hfs
          subst hs
          simp only [repo_file_isdir_exists fsa r _ true hdir]
          simp [hex]
        · rw [Bool.not_eq_true] at hex
          simp [hrf, hex] at h
          obtain ⟨hfs, hs⟩ := h
          subst hfs
          subst hs
          have hdir2 : (fsa.writeFile (repo_path r ["objects",
              (sha1Hex (objFrame obj)).take 2, (sha1Hex (objFrame obj)).drop 2])
              (FileData.bytes (zlibCompress (objFrame obj)))).isdir
              (repo_path r (["objects", (sha1Hex (objFrame obj)).take 2,
                (sha1Hex (objFrame obj)).drop 2].dropLast)) = true := hdir
          simp only [repo_file_isdir_exists _ r _ true hdir2]
          have hex2 := writeFile_exists_self fsa (repo_path r ["objects",
              (sha1Hex (objFrame obj)).take 2, (sha1Hex (objFrame obj)).drop 2])
            (FileData.bytes (zlibCompress (objFrame obj)))
          simp [hex2]
  · intro fs obj r hd
    have hd' : fs.isdir (repo_path r (["objects", (sha1Hex (objFrame obj)).take 2,
        (sha1Hex (objFrame obj)).drop 2].dropLast)) = true := by
      simpa using hd
    unfold object_write
    simp only [repo_file_isdir_exists fs r _ true hd']
    by_cases hex : fs.existsPath (repo_path r ["objects",
        (sha1Hex (objFrame obj)).take 2, (sha1Hex (objFrame obj)).drop 2]) = true
    · exact ⟨fs, by simp [hex]⟩
    · rw [Bool.not_eq_true] at hex
      exact ⟨fs.writeFile (repo_path r ["objects", (sha1Hex (objFrame obj)).take 2,
          (sha1Hex (objFrame obj)).drop 2]) (.bytes (zlibCompress (objFrame obj))),
        by simp [hex]⟩

/-- `/r` where the fan-out directory `objects/f2` for the `abc` blob's
digest already exists. -/
def fsFan : FS :=
  ⟨[["r"], ["r", ".git"], ["r", ".git", "objects"],
    ["r", ".git", "objects", "f2"]], []⟩

/-- C4 witness: the second write of the `abc` blob into `/r` is a no-op
returning the same digest, and a first write with the fan-out directory
present succeeds. -/
theorem object_write_idempotent_witness :
    object_write (object_write fsR blobAbc (some repoR)).1 blobAbc (some repoR) =
      ((object_write fsR blobAbc (some repoR)).1,
       .ok (sha1Hex (objFrame blobAbc))) ∧
    ∃ fs', object_write fsFan blobAbc (some repoR) =
      (fs', .ok (sha1Hex (objFrame blobAbc))) := by
  refine ⟨object_write_idempotent.1 fsR blobAbc repoR
            (object_write fsR blobAbc (some repoR)).1
            (sha1Hex (objFrame blobAbc)) (by decide),
          object_write_idempotent.2 fsFan blobAbc repoR (by decide)⟩

/-- `repoFindAux` when no ancestor of `p` (including `p` itself) has a
`.git` directory: the walk reaches the root and applies the `required`
policy. -/
theorem repoFindAux_none (fuel : Nat) :
    ∀ (fs : FS) (p : FPath) (required : Bool),
    p.length < fuel →
    (∀ k, k ≤ p.length → fs.isdir (p.take k ++ [".git"]) = false) →
    repoFindAux fuel fs p required =
      (fs, if required then .error (.exception "No git directory")
           else .ok none) := by
  induction fuel with
  | zero =>
    intro fs p required hlt hall
    omega
  | succ f ih =>
    intro fs p required hlt hall
    have hp : fs.isdir (p ++ [".git"]) = false := by
      have h := hall p.length (le_refl _)
      rwa [List.take_length] at h
    by_cases hpe : p.dropLast = p
    · have hnil : p = [] := by
        cases p with
        | nil => rfl
        | cons a as =>
          exfalso
          have hl := congrArg List.length hpe
          simp at hl
      subst hnil
      have hp' : fs.isdir [".git"] = false := by simpa using hp
      simp only [repoFindAux, hp', Bool.false_eq_true, if_false, List.dropLast_nil,
                 if_pos rfl]
      cases required <;> simp [hp']
    · simp only [repoFindAux, hp]
      simp only [Bool.false_eq_true, if_false, hpe, if_neg hpe]
      have hne : p ≠ [] := by
        intro hn
        subst hn
        exact hpe rfl
      have hlen : p.dropLast.length = p.length - 1 := by
        simp [List.length_dropLast]
      apply ih
      · have : 1 ≤ p.length := by
          cases p with
          | nil => exact absurd rfl hne
          | cons a as => simp
        omega
      · intro k hk
        have hk' : k ≤ p.length - 1 := by omega
        rw [List.dropLast_eq_take, List.take_take]
        have hmin : min k (p.length - 1) = k := by omega
        rw [hmin]
        exact hall k (by omega)

/-- `repoFindAux` when the deepest ancestor of `p` with a `.git`
directory is `p.take j`: the walk stops there and constructs a
discovery-mode `Repository` (whose checks may themselves fail and
propagate). -/
theorem repoFindAux_found (fuel : Nat) :
    ∀ (fs : FS) (p : FPath) (required : Bool) (j : Nat),
    p.length < fuel → j ≤ p.length →
    fs.isdir (p.take j ++ [".git"]) = true →
    (∀ k, k ≤ p.length → j < k → fs.isdir (p.take k ++ [".git"]) = false) →
    repoFindAux fuel fs p required =
      (fs, (repository_init fs (p.take j) false).map some) := by
  induction fuel with
  | zero =>
    intro fs p required j hlt
    omega
  | succ f ih =>
    intro fs p required j hlt hj hdir habove
    by_cases hp : fs.isdir (p ++ [".git"]) = true
    · have hjlen : j = p.length := by
        by_contra hne
        have hfalse := habove p.length (le_refl _) (lt_of_le_of_ne hj hne)
        rw [List.take_length, hp] at hfalse
        cases hfalse
      subst hjlen
      rw [List.take_length]
      rcases hri : repository_init fs p false with e | r <;>
        simp [repoFindAux, hp, hri, Except.map]
    · rw [Bool.not_eq_true] at hp
      have hjlt : j < p.length := by
        rcases Nat.lt_or_ge j p.length with h | h
        · exact h
        · have hje : j = p.length := le_antisymm hj h
          subst hje
          rw [List.take_length, hp] at hdir
          cases hdir
      have hne : p ≠ [] := by
        intro hn
        subst hn
        simp at hjlt
      have hpe : ¬ p.dropLast = p := by
        intro he
        have hl := congrArg List.length he
        rw [List.length_dropLast] at hl
        have : 1 ≤ p.length := by
          cases p with
          | nil => exact absurd rfl hne
          | cons a as => simp
        omega
      simp only [repoFindAux, hp, Bool.false_eq_true, if_false, if_neg hpe]
      have htake : p.dropLast.take j = p.take j := by
        rw [List.dropLast_eq_take, List.take_take]
        have hmin : min j (p.length - 1) = j := by omega
        rw [hmin]
      rw [ih fs p.dropLast required j ?_ ?_ ?_ ?_]
      · rw [htake]
      · rw [List.length_dropLast]
        omega
      · rw [List.length_dropLast]
        omega
      · rw [htake]
        exact hdir
      · intro k hk hjk
        rw [List.length_dropLast] at hk
        have htk : p.dropLast.take k = p.take k := by
          rw [List.dropLast_eq_take, List.take_take]
          have hmin : min k (p.length - 1) = k := by omega
          rw [hmin]
        rw [htk]
        exact habove k (by omega) hjk

/-- `/tmp`, before any repository exists. -/
def fsTmp : FS := ⟨[["tmp"]], []⟩

/-- The filesystem after `repo_create` bootstraps `/tmp/x`. -/
def fsTmpX : FS := (repo_create fsTmp ["tmp", "x"]).1

/-- `fsTmpX` with freshly created nested subdirectories
`/tmp/x/sub/sub2`. -/
def fsTmpXsub : FS :=
  ⟨fsTmpX.dirs ++ [["tmp", "x", "sub"], ["tmp", "x", "sub", "sub2"]],
   fsTmpX.files⟩

/-- C7: `repo_find` walks upward and (a) when no ancestor of the start
path has a `.git` directory it reaches the root, raising `No git
directory` when `required` and returning `None` otherwise; (b) when the
deepest such ancestor is `p.take j` it constructs a discovery-mode
`Repository` there (checks enforced, failures propagate); and (c)
concretely, after `repo_create("/tmp/x")`, searching from the newly
created `/tmp/x/sub/sub2` yields a `Repository` whose metadata directory
is `/tmp/x/.git`.  The walk never mutates the filesystem. -/
theorem repo_find_spec :
    (∀ (fs : FS) (p : FPath) (required : Bool),
      (∀ k, k ≤ p.length → fs.isdir (p.take k ++ [".git"]) = false) →
      repo_find fs p required =
        (fs, if required then .error (.exception "No git directory")
             else .ok none)) ∧
    (∀ (fs : FS) (p : FPath) (required : Bool) (j : Nat),
      j ≤ p.length →
      fs.isdir (p.take j ++ [".git"]) = true →
      (∀ k, k ≤ p.length → j < k → fs.isdir (p.take k ++ [".git"]) = false) →
      repo_find fs p required =
        (fs, (repository_init fs (p.take j) false).map some)) ∧
    ((repo_create fsTmp ["tmp", "x"]).2 =
        .ok ⟨["tmp", "x"], ["tmp", "x", ".git"], []⟩ ∧
      repo_find fsTmpXsub ["tmp", "x", "sub", "sub2"] true =
        (fsTmpXsub,
         .ok (some ⟨["tmp", "x"], ["tmp", "x", ".git"], repo_default_config⟩))) := by
  refine ⟨?_, ?_, ?_⟩
  · intro fs p required hall
    exact repoFindAux_none (p.length + 1) fs p required (by omega) hall
  · intro fs p required j hj hdir habove
    exact repoFindAux_found (p.length + 1) fs p required j (by omega) hj hdir habove
  · constructor <;> decide

/-- C7 witness: part (a) at a concrete two-level path with no repository
anywhere, and part (b) at the bootstrapped `/tmp/x` tree searched from
`/tmp/x/sub` (deepest `.git`-bearing ancestor index 2). -/
theorem repo_find_spec_witness :
    repo_find ⟨[["a"], ["a", "b"]], []⟩ ["a", "b"] false =
      (⟨[["a"], ["a", "b"]], []⟩, .ok none) ∧
    repo_find fsTmpXsub ["tmp", "x", "sub"] true =
      (fsTmpXsub,
       (repository_init fsTmpXsub (["tmp", "x", "sub"].take 2) false).map some) := by
  refine ⟨?_, ?_⟩
  · have h := repo_find_spec.1 ⟨[["a"], ["a", "b"]], []⟩ ["a", "b"] false
      (by decide)
    simpa using h
  · exact repo_find_spec.2.1 fsTmpXsub ["tmp", "x", "sub"] true 2
      (by decide) (by decide) (by decide)
